import Mathlib

/-!
Verification of the package-initialization shim
`python/lsst/meas/extensions/photometryKron/__init__.py`.

The module body executes, in order: a star-import of `.kronLib`, a
star-import of `.version`, an ordinary module-import of `lsst.meas.base`,
the call `lsst.meas.base.wrapSimpleAlgorithm(KronFluxAlgorithm,
name="ext_photometryKron_KronFlux", Control=KronFluxControl,
executionOrder=2.0, shouldApCorr=True)`, and finally `del lsst` to clean the
namespace.

We shallowly embed this import-time behaviour as a state transformer over a
process state (host registry, loaded modules, the module's own namespace),
producing an explicit trace of effects, with failures surfaced through
`Except`.  The companion modules `kronLib` and `version` and the host entry
point `wrapSimpleAlgorithm` are not part of the provided source; they are
modelled from the specification where indicated.
-/

namespace PhotometryKron

/-- A runtime value bound in the module's namespace: either a symbol obtained
from a star-import of some module, or a reference to an imported module. -/
inductive Value where
  | moduleExport (srcModule : String) (symbol : String)
  | moduleRef (modName : String)
  deriving DecidableEq, Repr

/-- Drop every pair keyed by `n` from an association list. -/
def removeName : List (String × Value) → String → List (String × Value)
  | [], _ => []
  | (k, v) :: rest, n =>
    if k = n then removeName rest n else (k, v) :: removeName rest n

/-- Bind `n` to `v` in a namespace (an association list); a later binding
shadows any earlier one, as assignment into a Python module dict does. -/
def bindName (ns : List (String × Value)) (n : String) (v : Value) :
    List (String × Value) :=
  (n, v) :: removeName ns n

/-- Remove the binding of `n` from a namespace (`del n`). -/
def delName (ns : List (String × Value)) (n : String) : List (String × Value) :=
  removeName ns n

/-- Look a name up in a namespace. -/
def lookupName : List (String × Value) → String → Option Value
  | [], _ => none
  | (k, v) :: rest, n => if n = k then some v else lookupName rest n

/-- `from m import *` with effective export list `exports`: binds each
exported symbol into the namespace, in order. -/
def starImport (ns : List (String × Value)) (m : String)
    (exports : List String) : List (String × Value) :=
  exports.foldl (fun acc e => bindName acc e (Value.moduleExport m e)) ns

/-- An entry of the host framework's process-wide algorithm registry: the
tuple (name, algorithm type, control type, executionOrder, shouldApCorr).
The Python execution-order value `2.0` is a float that denotes the exact
rational number 2, so `executionOrder` is modelled as a rational. -/
structure RegistryEntry where
  name : String
  algorithm : Value
  Control : Value
  executionOrder : Rat
  shouldApCorr : Bool
  deriving DecidableEq, Repr

/-- A failure during module initialization. -/
inductive InitError where
  | importError (modName : String)
  | nameError (n : String)
  | registrationRejected (n : String)
  deriving DecidableEq, Repr

/-- Modelled from the spec: `lsst.meas.base.wrapSimpleAlgorithm` (the host
framework's registration entry point, external to the provided source)
records the tuple (name, algorithm, Control, executionOrder, shouldApCorr)
into the process-wide registry; the host enforces that `name` is unique
within the registry and rejects a duplicate name. -/
def wrapSimpleAlgorithm (registry : List RegistryEntry) (alg : Value)
    (name : String) (Control : Value) (executionOrder : Rat)
    (shouldApCorr : Bool) : Except InitError (List RegistryEntry) :=
  if registry.any (fun e => e.name == name) then
    Except.error (InitError.registrationRejected name)
  else
    Except.ok (registry ++ [⟨name, alg, Control, executionOrder, shouldApCorr⟩])

/-- The observable process state the module body acts on: the host registry,
the set of loaded modules, and the module's own namespace. -/
structure ProcState where
  registry : List RegistryEntry
  loadedModules : List String
  ns : List (String × Value)
  deriving DecidableEq, Repr

/-- One observable effect of executing the module body. -/
inductive Effect where
  | starImported (modName : String)
  | importedModule (modName : String)
  | registered (entry : RegistryEntry)
  | deletedName (n : String)
  deriving DecidableEq, Repr

/-- Whether an effect is a registration against the host registry. -/
def isRegistered : Effect → Bool
  | Effect.registered _ => true
  | _ => false

def kronLibModule : String := "lsst.meas.extensions.photometryKron.kronLib"

def versionModule : String := "lsst.meas.extensions.photometryKron.version"

def measBaseModule : String := "lsst.meas.base"

/-- The string identifier passed as `name=` in the registration call. -/
def kronFluxName : String := "ext_photometryKron_KronFlux"

/-- Modelled from the spec: the companion `version` module (not part of the
provided source) exports a version identifier; it does not export algorithm
symbols. -/
def versionExports : List String := ["__version__"]

/-- The import-time body of `__init__.py`, line for line.  `kronLibOk`,
`versionOk` and `measBaseOk` say whether the respective import resolves
(the companion modules and the host framework are external to the provided
file); `kronLibExports` is the effective export list of the companion
`kronLib` module, which is not part of the provided source.  Returns the
resulting process state and the trace of effects, or the first failure. -/
def moduleInit (kronLibOk versionOk measBaseOk : Bool)
    (kronLibExports : List String) (s : ProcState) :
    Except InitError (ProcState × List Effect) :=
  -- from .kronLib import *
  if kronLibOk then
    let s1 : ProcState :=
      { s with ns := starImport s.ns kronLibModule kronLibExports,
               loadedModules := s.loadedModules ++ [kronLibModule] }
    -- from .version import *
    if versionOk then
      let s2 : ProcState :=
        { s1 with ns := starImport s1.ns versionModule versionExports,
                  loadedModules := s1.loadedModules ++ [versionModule] }
      -- import lsst.meas.base  (binds the top-level package name "lsst")
      if measBaseOk then
        let s3 : ProcState :=
          { s2 with ns := bindName s2.ns "lsst" (Value.moduleRef "lsst"),
                    loadedModules := s2.loadedModules ++ [measBaseModule] }
        -- lsst.meas.base.wrapSimpleAlgorithm(KronFluxAlgorithm, ...)
        match lookupName s3.ns "KronFluxAlgorithm" with
        | none => Except.error (InitError.nameError "KronFluxAlgorithm")
        | some alg =>
          match lookupName s3.ns "KronFluxControl" with
          | none => Except.error (InitError.nameError "KronFluxControl")
          | some ctrl =>
            match wrapSimpleAlgorithm s3.registry alg kronFluxName ctrl 2 true with
            | Except.error e => Except.error e
            | Except.ok reg2 =>
              let s4 : ProcState := { s3 with registry := reg2 }
              -- del lsst
              match lookupName s4.ns "lsst" with
              | none => Except.error (InitError.nameError "lsst")
              | some _ =>
                Except.ok ({ s4 with ns := delName s4.ns "lsst" },
                  [Effect.starImported kronLibModule,
                   Effect.starImported versionModule,
                   Effect.importedModule measBaseModule,
                   Effect.registered ⟨kronFluxName, alg, ctrl, 2, true⟩,
                   Effect.deletedName "lsst"])
      else Except.error (InitError.importError measBaseModule)
    else Except.error (InitError.importError versionModule)
  else Except.error (InitError.importError kronLibModule)

/-- The registry entry created by a successful run of the module body. -/
def kronEntry : RegistryEntry :=
  ⟨kronFluxName, Value.moduleExport kronLibModule "KronFluxAlgorithm",
   Value.moduleExport kronLibModule "KronFluxControl", 2, true⟩

/-- The effect trace of a successful run of the module body. -/
def successTrace : List Effect :=
  [Effect.starImported kronLibModule,
   Effect.starImported versionModule,
   Effect.importedModule measBaseModule,
   Effect.registered kronEntry,
   Effect.deletedName "lsst"]

/-- The namespace of the module just before `del lsst` runs. -/
def preDelNs (kronLibExports : List String) (ns0 : List (String × Value)) :
    List (String × Value) :=
  bindName (starImport (starImport ns0 kronLibModule kronLibExports)
    versionModule versionExports) "lsst" (Value.moduleRef "lsst")

/-- The process state produced by a successful run of the module body. -/
def successState (kronLibExports : List String) (s : ProcState) : ProcState :=
  { registry := s.registry ++ [kronEntry],
    loadedModules :=
      s.loadedModules ++ [kronLibModule] ++ [versionModule] ++ [measBaseModule],
    ns := delName (preDelNs kronLibExports s.ns) "lsst" }

/-- Looking up a name other than the removed one is unchanged. -/
theorem lookupName_removeName_ne (ns : List (String × Value)) (n x : String)
    (h : x ≠ n) :
    lookupName (removeName ns n) x = lookupName ns x := by
  induction ns with
  | nil => rfl
  | cons p rest ih =>
    cases p with
    | mk k v =>
      by_cases hp : k = n
      · have hxk : x ≠ k := fun hxk => h (hxk.trans hp)
        simp [removeName, hp, lookupName, hxk, h, ih]
      · simp [removeName, hp, lookupName, ih]

/-- Looking up the removed name yields nothing. -/
theorem lookupName_removeName_self (ns : List (String × Value)) (n : String) :
    lookupName (removeName ns n) n = none := by
  induction ns with
  | nil => rfl
  | cons p rest ih =>
    cases p with
    | mk k v =>
      by_cases hp : k = n
      · simp [removeName, hp, ih]
      · simp [removeName, hp, lookupName, Ne.symm hp, ih]

/-- Lookup after a single binding. -/
theorem lookupName_bindName (ns : List (String × Value)) (n x : String)
    (v : Value) :
    lookupName (bindName ns n v) x = if x = n then some v else lookupName ns x := by
  by_cases hx : x = n
  · simp [bindName, lookupName, hx]
  · simp [bindName, lookupName, hx, lookupName_removeName_ne ns n x hx]

/-- Lookup after a `del`. -/
theorem lookupName_delName (ns : List (String × Value)) (n x : String) :
    lookupName (delName ns n) x = if x = n then none else lookupName ns x := by
  by_cases hx : x = n
  · simp [delName, hx, lookupName_removeName_self]
  · simp [delName, hx, lookupName_removeName_ne ns n x hx]

/-- Lookup after a star-import: an exported symbol is bound to that module's
export; any other name is untouched. -/
theorem lookupName_starImport (exports : List String)
    (ns : List (String × Value)) (m x : String) :
    lookupName (starImport ns m exports) x =
      if x ∈ exports then some (Value.moduleExport m x)
      else lookupName ns x := by
  induction exports generalizing ns with
  | nil => simp [starImport]
  | cons e rest ih =>
    have hstep : starImport ns m (e :: rest) =
        starImport (bindName ns e (Value.moduleExport m e)) m rest := rfl
    rw [hstep, ih]
    by_cases hr : x ∈ rest
    · simp [hr, List.mem_cons]
    · by_cases he : x = e
      · simp [hr, he, lookupName_bindName]
      · simp [hr, he, List.mem_cons, lookupName_bindName]

/-- A successful run of the module body: when both companion modules and the
host framework resolve, `kronLib` exports the two required symbols, and the
host registry holds no prior entry under the Kron name, `moduleInit`
produces exactly `successState` and `successTrace`. -/
theorem moduleInit_success (exports : List String) (s : ProcState)
    (hA : "KronFluxAlgorithm" ∈ exports) (hC : "KronFluxControl" ∈ exports)
    (hD : s.registry.any (fun e => e.name == kronFluxName) = false) :
    moduleInit true true true exports s =
      Except.ok (successState exports s, successTrace) := by
  simp [moduleInit, wrapSimpleAlgorithm, lookupName_bindName,
    lookupName_starImport, versionExports, hA, hC, hD, successState,
    successTrace, preDelNs, kronEntry]

/-- If `l.any p = false` then `p` holds for no element of `l`. -/
theorem eq_false_of_any_eq_false {α : Type} (p : α → Bool) (l : List α)
    (h : l.any p = false) : ∀ a ∈ l, p a = false := by
  induction l with
  | nil => intro a ha; cases ha
  | cons b rest ih =>
    simp only [List.any_cons, Bool.or_eq_false_iff] at h
    intro a ha
    rcases List.mem_cons.mp ha with rfl | ha
    · exact h.1
    · exact ih h.2 a ha

/-- If `l.any p = false` then `l.countP p = 0`. -/
theorem countP_eq_zero_of_any_eq_false {α : Type} (p : α → Bool) (l : List α)
    (h : l.any p = false) : l.countP p = 0 := by
  induction l with
  | nil => rfl
  | cons b rest ih =>
    simp only [List.any_cons, Bool.or_eq_false_iff] at h
    simp [List.countP_cons, h.1, ih h.2]

/-- C1: after importing the module, the host registry contains exactly one
entry named "ext_photometryKron_KronFlux": the single registration call adds
that name, and the module performs no other registration (the final registry
is the initial one extended by exactly the one Kron entry, and the effect
trace holds exactly one registration event). -/
theorem claim1_registry_has_exactly_one_kron_entry (exports : List String)
    (s : ProcState)
    (hA : "KronFluxAlgorithm" ∈ exports) (hC : "KronFluxControl" ∈ exports)
    (hD : s.registry.any (fun e => e.name == kronFluxName) = false) :
    moduleInit true true true exports s =
      Except.ok (successState exports s, successTrace) ∧
    (successState exports s).registry.countP
      (fun e => e.name == kronFluxName) = 1 ∧
    (successState exports s).registry = s.registry ++ [kronEntry] ∧
    successTrace.countP isRegistered = 1 := by
  refine ⟨moduleInit_success exports s hA hC hD, ?_, rfl, by decide⟩
  have h0 : s.registry.countP (fun e => e.name == kronFluxName) = 0 :=
    countP_eq_zero_of_any_eq_false _ _ hD
  rw [show (successState exports s).registry = s.registry ++ [kronEntry] from rfl,
    List.countP_append, h0]
  decide

/-- C1 witness at a concrete input. -/
theorem claim1_witness :
    moduleInit true true true ["KronFluxAlgorithm", "KronFluxControl"]
        ⟨[], [], []⟩ =
      Except.ok
        (successState ["KronFluxAlgorithm", "KronFluxControl"] ⟨[], [], []⟩,
         successTrace) ∧
    (successState ["KronFluxAlgorithm", "KronFluxControl"]
        ⟨[], [], []⟩).registry.countP (fun e => e.name == kronFluxName) = 1 ∧
    (successState ["KronFluxAlgorithm", "KronFluxControl"]
        ⟨[], [], []⟩).registry =
      (⟨[], [], []⟩ : ProcState).registry ++ [kronEntry] ∧
    successTrace.countP isRegistered = 1 :=
  claim1_registry_has_exactly_one_kron_entry
    ["KronFluxAlgorithm", "KronFluxControl"] ⟨[], [], []⟩
    (by decide) (by decide) (by decide)

/-- In the successful final registry, the only entry bearing the Kron name is
the one the module registered. -/
theorem successState_registry_named_eq (exports : List String) (s : ProcState)
    (hD : s.registry.any (fun e => e.name == kronFluxName) = false) :
    ∀ e ∈ (successState exports s).registry, e.name = kronFluxName →
      e = kronEntry := by
  intro e he hname
  rw [show (successState exports s).registry = s.registry ++ [kronEntry] from rfl]
    at he
  rcases List.mem_append.mp he with hmem | hmem
  · have hfalse := eq_false_of_any_eq_false _ _ hD e hmem
    rw [beq_eq_false_iff_ne] at hfalse
    exact absurd hname hfalse
  · simpa using hmem

/-- C2: the execution-order value passed to the registration call, and hence
recorded for the registry entry "ext_photometryKron_KronFlux", equals the
numeric constant 2.0 (the exact rational 2). -/
theorem claim2_executionOrder_is_two (exports : List String) (s : ProcState)
    (hA : "KronFluxAlgorithm" ∈ exports) (hC : "KronFluxControl" ∈ exports)
    (hD : s.registry.any (fun e => e.name == kronFluxName) = false) :
    moduleInit true true true exports s =
      Except.ok (successState exports s, successTrace) ∧
    kronEntry.executionOrder = 2 ∧
    ∀ e ∈ (successState exports s).registry, e.name = kronFluxName →
      e.executionOrder = 2 := by
  refine ⟨moduleInit_success exports s hA hC hD, rfl, ?_⟩
  intro e he hname
  rw [successState_registry_named_eq exports s hD e he hname]
  rfl

/-- C2 witness at a concrete input. -/
theorem claim2_witness :
    moduleInit true true true ["KronFluxAlgorithm", "KronFluxControl"]
        ⟨[], [], []⟩ =
      Except.ok
        (successState ["KronFluxAlgorithm", "KronFluxControl"] ⟨[], [], []⟩,
         successTrace) ∧
    kronEntry.executionOrder = 2 ∧
    ∀ e ∈ (successState ["KronFluxAlgorithm", "KronFluxControl"]
        ⟨[], [], []⟩).registry, e.name = kronFluxName →
      e.executionOrder = 2 :=
  claim2_executionOrder_is_two
    ["KronFluxAlgorithm", "KronFluxControl"] ⟨[], [], []⟩
    (by decide) (by decide) (by decide)

/-- C3: the aperture-correction flag passed to the registration call, and
hence recorded for the registry entry "ext_photometryKron_KronFlux", equals
true. -/
theorem claim3_shouldApCorr_is_true (exports : List String) (s : ProcState)
    (hA : "KronFluxAlgorithm" ∈ exports) (hC : "KronFluxControl" ∈ exports)
    (hD : s.registry.any (fun e => e.name == kronFluxName) = false) :
    moduleInit true true true exports s =
      Except.ok (successState exports s, successTrace) ∧
    kronEntry.shouldApCorr = true ∧
    ∀ e ∈ (successState exports s).registry, e.name = kronFluxName →
      e.shouldApCorr = true := by
  refine ⟨moduleInit_success exports s hA hC hD, rfl, ?_⟩
  intro e he hname
  rw [successState_registry_named_eq exports s hD e he hname]
  rfl

/-- C3 witness at a concrete input. -/
theorem claim3_witness :
    moduleInit true true true ["KronFluxAlgorithm", "KronFluxControl"]
        ⟨[], [], []⟩ =
      Except.ok
        (successState ["KronFluxAlgorithm", "KronFluxControl"] ⟨[], [], []⟩,
         successTrace) ∧
    kronEntry.shouldApCorr = true ∧
    ∀ e ∈ (successState ["KronFluxAlgorithm", "KronFluxControl"]
        ⟨[], [], []⟩).registry, e.name = kronFluxName →
      e.shouldApCorr = true :=
  claim3_shouldApCorr_is_true
    ["KronFluxAlgorithm", "KronFluxControl"] ⟨[], [], []⟩
    (by decide) (by decide) (by decide)

/-- C4: the configuration type bound to the registry entry
"ext_photometryKron_KronFlux" is exactly the `KronFluxControl` symbol
star-imported from the companion `kronLib` module, and the algorithm type
bound is the companion module's `KronFluxAlgorithm`. -/
theorem claim4_bound_types_from_kronLib (exports : List String) (s : ProcState)
    (hA : "KronFluxAlgorithm" ∈ exports) (hC : "KronFluxControl" ∈ exports)
    (hD : s.registry.any (fun e => e.name == kronFluxName) = false) :
    moduleInit true true true exports s =
      Except.ok (successState exports s, successTrace) ∧
    ∀ e ∈ (successState exports s).registry, e.name = kronFluxName →
      e.Control = Value.moduleExport kronLibModule "KronFluxControl" ∧
      e.algorithm = Value.moduleExport kronLibModule "KronFluxAlgorithm" := by
  refine ⟨moduleInit_success exports s hA hC hD, ?_⟩
  intro e he hname
  rw [successState_registry_named_eq exports s hD e he hname]
  exact ⟨rfl, rfl⟩

/-- C4 witness at a concrete input. -/
theorem claim4_witness :
    moduleInit true true true ["KronFluxAlgorithm", "KronFluxControl"]
        ⟨[], [], []⟩ =
      Except.ok
        (successState ["KronFluxAlgorithm", "KronFluxControl"] ⟨[], [], []⟩,
         successTrace) ∧
    ∀ e ∈ (successState ["KronFluxAlgorithm", "KronFluxControl"]
        ⟨[], [], []⟩).registry, e.name = kronFluxName →
      e.Control = Value.moduleExport kronLibModule "KronFluxControl" ∧
      e.algorithm = Value.moduleExport kronLibModule "KronFluxAlgorithm" :=
  claim4_bound_types_from_kronLib
    ["KronFluxAlgorithm", "KronFluxControl"] ⟨[], [], []⟩
    (by decide) (by decide) (by decide)

/-- C5: importing the module performs exactly one registration call against
the host's process-wide registry; besides symbol import, that registry
mutation is the only effect (the trace holds one registration, and apart
from the star-imports, the framework import and the namespace cleanup there
is nothing else); the entry is appended once and is still intact, unmutated,
at the end of initialization. -/
theorem claim5_exactly_one_registration (exports : List String) (s : ProcState)
    (hA : "KronFluxAlgorithm" ∈ exports) (hC : "KronFluxControl" ∈ exports)
    (hD : s.registry.any (fun e => e.name == kronFluxName) = false) :
    moduleInit true true true exports s =
      Except.ok (successState exports s, successTrace) ∧
    successTrace.countP isRegistered = 1 ∧
    successTrace.filter isRegistered = [Effect.registered kronEntry] ∧
    (successState exports s).registry = s.registry ++ [kronEntry] ∧
    kronEntry ∈ (successState exports s).registry :=
  ⟨moduleInit_success exports s hA hC hD, by decide, by decide, rfl,
    by simp [successState]⟩

/-- C5 witness at a concrete input. -/
theorem claim5_witness :
    moduleInit true true true ["KronFluxAlgorithm", "KronFluxControl"]
        ⟨[], [], []⟩ =
      Except.ok
        (successState ["KronFluxAlgorithm", "KronFluxControl"] ⟨[], [], []⟩,
         successTrace) ∧
    successTrace.countP isRegistered = 1 ∧
    successTrace.filter isRegistered = [Effect.registered kronEntry] ∧
    (successState ["KronFluxAlgorithm", "KronFluxControl"]
        ⟨[], [], []⟩).registry =
      (⟨[], [], []⟩ : ProcState).registry ++ [kronEntry] ∧
    kronEntry ∈ (successState ["KronFluxAlgorithm", "KronFluxControl"]
        ⟨[], [], []⟩).registry :=
  claim5_exactly_one_registration
    ["KronFluxAlgorithm", "KronFluxControl"] ⟨[], [], []⟩
    (by decide) (by decide) (by decide)

/-- C7: after the module's import completes, the name "lsst" (the binding
created by `import lsst.meas.base`) is absent from the module's own
namespace: the framework reference is not exposed as a public attribute. -/
theorem claim7_framework_name_absent (exports : List String) (s : ProcState)
    (hA : "KronFluxAlgorithm" ∈ exports) (hC : "KronFluxControl" ∈ exports)
    (hD : s.registry.any (fun e => e.name == kronFluxName) = false) :
    moduleInit true true true exports s =
      Except.ok (successState exports s, successTrace) ∧
    lookupName (successState exports s).ns "lsst" = none :=
  ⟨moduleInit_success exports s hA hC hD,
    by simp [successState, lookupName_delName]⟩

/-- C7 witness at a concrete input. -/
theorem claim7_witness :
    moduleInit true true true ["KronFluxAlgorithm", "KronFluxControl"]
        ⟨[], [], []⟩ =
      Except.ok
        (successState ["KronFluxAlgorithm", "KronFluxControl"] ⟨[], [], []⟩,
         successTrace) ∧
    lookupName (successState ["KronFluxAlgorithm", "KronFluxControl"]
        ⟨[], [], []⟩).ns "lsst" = none :=
  claim7_framework_name_absent
    ["KronFluxAlgorithm", "KronFluxControl"] ⟨[], [], []⟩
    (by decide) (by decide) (by decide)

/-- C8: the module's import-time effects occur in this fixed order: the two
star-imports (algorithm implementation, then version identifier), then the
framework import, then the registration, and finally the removal of the
framework name; no step is skipped or reordered. -/
theorem claim8_effects_in_fixed_order (exports : List String) (s : ProcState)
    (hA : "KronFluxAlgorithm" ∈ exports) (hC : "KronFluxControl" ∈ exports)
    (hD : s.registry.any (fun e => e.name == kronFluxName) = false) :
    moduleInit true true true exports s =
      Except.ok (successState exports s, successTrace) ∧
    successTrace =
      [Effect.starImported kronLibModule,
       Effect.starImported versionModule,
       Effect.importedModule measBaseModule,
       Effect.registered kronEntry,
       Effect.deletedName "lsst"] :=
  ⟨moduleInit_success exports s hA hC hD, rfl⟩

/-- C8 witness at a concrete input. -/
theorem claim8_witness :
    moduleInit true true true ["KronFluxAlgorithm", "KronFluxControl"]
        ⟨[], [], []⟩ =
      Except.ok
        (successState ["KronFluxAlgorithm", "KronFluxControl"] ⟨[], [], []⟩,
         successTrace) ∧
    successTrace =
      [Effect.starImported kronLibModule,
       Effect.starImported versionModule,
       Effect.importedModule measBaseModule,
       Effect.registered kronEntry,
       Effect.deletedName "lsst"] :=
  claim8_effects_in_fixed_order
    ["KronFluxAlgorithm", "KronFluxControl"] ⟨[], [], []⟩
    (by decide) (by decide) (by decide)

/-- C9: the post-registration `del lsst` removes only the module-level
binding: the registry entry created by the registration still exists, the
host framework module remains loaded, and every namespace binding other than
"lsst" is exactly as it was just before the deletion. -/
theorem claim9_del_removes_only_binding (exports : List String) (s : ProcState)
    (hA : "KronFluxAlgorithm" ∈ exports) (hC : "KronFluxControl" ∈ exports)
    (hD : s.registry.any (fun e => e.name == kronFluxName) = false) :
    moduleInit true true true exports s =
      Except.ok (successState exports s, successTrace) ∧
    kronEntry ∈ (successState exports s).registry ∧
    measBaseModule ∈ (successState exports s).loadedModules ∧
    lookupName (successState exports s).ns "lsst" = none ∧
    ∀ x, x ≠ "lsst" →
      lookupName (successState exports s).ns x =
        lookupName (preDelNs exports s.ns) x := by
  refine ⟨moduleInit_success exports s hA hC hD, by simp [successState],
    by simp [successState], by simp [successState, lookupName_delName], ?_⟩
  intro x hx
  rw [show (successState exports s).ns = delName (preDelNs exports s.ns) "lsst"
    from rfl, lookupName_delName]
  simp [hx]

/-- C9 witness at a concrete input. -/
theorem claim9_witness :
    moduleInit true true true ["KronFluxAlgorithm", "KronFluxControl"]
        ⟨[], [], []⟩ =
      Except.ok
        (successState ["KronFluxAlgorithm", "KronFluxControl"] ⟨[], [], []⟩,
         successTrace) ∧
    kronEntry ∈ (successState ["KronFluxAlgorithm", "KronFluxControl"]
        ⟨[], [], []⟩).registry ∧
    measBaseModule ∈ (successState ["KronFluxAlgorithm", "KronFluxControl"]
        ⟨[], [], []⟩).loadedModules ∧
    lookupName (successState ["KronFluxAlgorithm", "KronFluxControl"]
        ⟨[], [], []⟩).ns "lsst" = none ∧
    ∀ x, x ≠ "lsst" →
      lookupName (successState ["KronFluxAlgorithm", "KronFluxControl"]
          ⟨[], [], []⟩).ns x =
        lookupName (preDelNs ["KronFluxAlgorithm", "KronFluxControl"] []) x :=
  claim9_del_removes_only_binding
    ["KronFluxAlgorithm", "KronFluxControl"] ⟨[], [], []⟩
    (by decide) (by decide) (by decide)

/-- If the companion `kronLib` module does not resolve, initialization stops
at the first line with that import failure. -/
theorem moduleInit_kronLib_importError (v m : Bool) (exports : List String)
    (s : ProcState) :
    moduleInit false v m exports s =
      Except.error (InitError.importError kronLibModule) := rfl

/-- If the companion `version` module does not resolve, initialization stops
at the second line with that import failure. -/
theorem moduleInit_version_importError (m : Bool) (exports : List String)
    (s : ProcState) :
    moduleInit true false m exports s =
      Except.error (InitError.importError versionModule) := rfl

/-- If the host framework does not resolve, initialization stops at the
framework import with that import failure. -/
theorem moduleInit_measBase_importError (exports : List String)
    (s : ProcState) :
    moduleInit true true false exports s =
      Except.error (InitError.importError measBaseModule) := rfl

/-- If no star-import bound `KronFluxAlgorithm` (fresh module namespace),
the registration call raises a name-resolution error and initialization
aborts with it. -/
theorem moduleInit_nameError_alg (exports : List String) (s : ProcState)
    (hNs : s.ns = []) (h1 : "KronFluxAlgorithm" ∉ exports) :
    moduleInit true true true exports s =
      Except.error (InitError.nameError "KronFluxAlgorithm") := by
  have hL : lookupName (bindName (starImport (starImport s.ns kronLibModule
      exports) versionModule versionExports) "lsst" (Value.moduleRef "lsst"))
      "KronFluxAlgorithm" = none := by
    rw [lookupName_bindName, lookupName_starImport, lookupName_starImport]
    simp [versionExports, h1, hNs, lookupName]
  simp [moduleInit, hL]

/-- If `KronFluxAlgorithm` is bound but `KronFluxControl` is not, the
registration call raises a name-resolution error on the control symbol. -/
theorem moduleInit_nameError_ctrl (exports : List String) (s : ProcState)
    (hNs : s.ns = []) (hA : "KronFluxAlgorithm" ∈ exports)
    (h2 : "KronFluxControl" ∉ exports) :
    moduleInit true true true exports s =
      Except.error (InitError.nameError "KronFluxControl") := by
  have hLA : lookupName (bindName (starImport (starImport s.ns kronLibModule
      exports) versionModule versionExports) "lsst" (Value.moduleRef "lsst"))
      "KronFluxAlgorithm" =
      some (Value.moduleExport kronLibModule "KronFluxAlgorithm") := by
    rw [lookupName_bindName, lookupName_starImport, lookupName_starImport]
    simp [versionExports, hA]
  have hLC : lookupName (bindName (starImport (starImport s.ns kronLibModule
      exports) versionModule versionExports) "lsst" (Value.moduleRef "lsst"))
      "KronFluxControl" = none := by
    rw [lookupName_bindName, lookupName_starImport, lookupName_starImport]
    simp [versionExports, h2, hNs, lookupName]
  simp [moduleInit, hLA, hLC]

/-- If the host registry already holds an entry under the Kron name, the
host's rejection propagates unchanged out of initialization. -/
theorem moduleInit_registration_rejected (exports : List String)
    (s : ProcState) (hA : "KronFluxAlgorithm" ∈ exports)
    (hC : "KronFluxControl" ∈ exports)
    (hAny : s.registry.any (fun e => e.name == kronFluxName) = true) :
    moduleInit true true true exports s =
      Except.error (InitError.registrationRejected kronFluxName) := by
  simp [moduleInit, wrapSimpleAlgorithm, lookupName_bindName,
    lookupName_starImport, versionExports, hA, hC, hAny]

/-- C6: every failure during module initialization — import-resolution
failure of either companion module or of the host framework, a
name-resolution failure at the registration call, or rejection of the
registration by the host registry — propagates unchanged to the importer and
aborts initialization; the module catches, wraps, or recovers from no
error. -/
theorem claim6_failures_propagate_unchanged (exports : List String)
    (s : ProcState) (hNs : s.ns = []) :
    (moduleInit false true true exports s =
      Except.error (InitError.importError kronLibModule)) ∧
    (moduleInit true false true exports s =
      Except.error (InitError.importError versionModule)) ∧
    (moduleInit true true false exports s =
      Except.error (InitError.importError measBaseModule)) ∧
    ("KronFluxAlgorithm" ∉ exports →
      moduleInit true true true exports s =
        Except.error (InitError.nameError "KronFluxAlgorithm")) ∧
    ("KronFluxAlgorithm" ∈ exports → "KronFluxControl" ∉ exports →
      moduleInit true true true exports s =
        Except.error (InitError.nameError "KronFluxControl")) ∧
    ("KronFluxAlgorithm" ∈ exports → "KronFluxControl" ∈ exports →
      s.registry.any (fun e => e.name == kronFluxName) = true →
      moduleInit true true true exports s =
        Except.error (InitError.registrationRejected kronFluxName)) :=
  ⟨moduleInit_kronLib_importError true true exports s,
   moduleInit_version_importError true exports s,
   moduleInit_measBase_importError exports s,
   fun h1 => moduleInit_nameError_alg exports s hNs h1,
   fun hA h2 => moduleInit_nameError_ctrl exports s hNs hA h2,
   fun hA hC hAny => moduleInit_registration_rejected exports s hA hC hAny⟩

/-- C6 witness at a concrete input. -/
theorem claim6_witness :
    (moduleInit false true true ["KronFluxAlgorithm"] ⟨[], [], []⟩ =
      Except.error (InitError.importError kronLibModule)) ∧
    (moduleInit true false true ["KronFluxAlgorithm"] ⟨[], [], []⟩ =
      Except.error (InitError.importError versionModule)) ∧
    (moduleInit true true false ["KronFluxAlgorithm"] ⟨[], [], []⟩ =
      Except.error (InitError.importError measBaseModule)) ∧
    ("KronFluxAlgorithm" ∉ ["KronFluxAlgorithm"] →
      moduleInit true true true ["KronFluxAlgorithm"] ⟨[], [], []⟩ =
        Except.error (InitError.nameError "KronFluxAlgorithm")) ∧
    ("KronFluxAlgorithm" ∈ ["KronFluxAlgorithm"] →
      "KronFluxControl" ∉ ["KronFluxAlgorithm"] →
      moduleInit true true true ["KronFluxAlgorithm"] ⟨[], [], []⟩ =
        Except.error (InitError.nameError "KronFluxControl")) ∧
    ("KronFluxAlgorithm" ∈ ["KronFluxAlgorithm"] →
      "KronFluxControl" ∈ ["KronFluxAlgorithm"] →
      (⟨[], [], []⟩ : ProcState).registry.any
        (fun e => e.name == kronFluxName) = true →
      moduleInit true true true ["KronFluxAlgorithm"] ⟨[], [], []⟩ =
        Except.error (InitError.registrationRejected kronFluxName)) :=
  claim6_failures_propagate_unchanged ["KronFluxAlgorithm"] ⟨[], [], []⟩ rfl

/-- C10: the registration call can only succeed when the star-imports have
bound both `KronFluxAlgorithm` and `KronFluxControl`; starting from a fresh
module namespace, if `kronLib` does not export either name, initialization
fails with a name-resolution error at the registration call (so no registry
entry is created), and conversely a successful run implies both names were
exported. -/
theorem claim10_registration_needs_kron_symbols (exports : List String)
    (s : ProcState) (hNs : s.ns = []) :
    ("KronFluxAlgorithm" ∉ exports →
      moduleInit true true true exports s =
        Except.error (InitError.nameError "KronFluxAlgorithm")) ∧
    ("KronFluxAlgorithm" ∈ exports → "KronFluxControl" ∉ exports →
      moduleInit true true true exports s =
        Except.error (InitError.nameError "KronFluxControl")) ∧
    (∀ r, moduleInit true true true exports s = Except.ok r →
      "KronFluxAlgorithm" ∈ exports ∧ "KronFluxControl" ∈ exports) := by
  refine ⟨fun h1 => moduleInit_nameError_alg exports s hNs h1,
    fun hA h2 => moduleInit_nameError_ctrl exports s hNs hA h2, ?_⟩
  intro r hok
  by_cases mA : "KronFluxAlgorithm" ∈ exports
  · by_cases mC : "KronFluxControl" ∈ exports
    · exact ⟨mA, mC⟩
    · rw [moduleInit_nameError_ctrl exports s hNs mA mC] at hok
      cases hok
  · rw [moduleInit_nameError_alg exports s hNs mA] at hok
    cases hok

/-- C10 witness at a concrete input. -/
theorem claim10_witness :
    ("KronFluxAlgorithm" ∉ ([] : List String) →
      moduleInit true true true [] ⟨[], [], []⟩ =
        Except.error (InitError.nameError "KronFluxAlgorithm")) ∧
    ("KronFluxAlgorithm" ∈ ([] : List String) →
      "KronFluxControl" ∉ ([] : List String) →
      moduleInit true true true [] ⟨[], [], []⟩ =
        Except.error (InitError.nameError "KronFluxControl")) ∧
    (∀ r, moduleInit true true true [] ⟨[], [], []⟩ = Except.ok r →
      "KronFluxAlgorithm" ∈ ([] : List String) ∧
      "KronFluxControl" ∈ ([] : List String)) :=
  claim10_registration_needs_kron_symbols [] ⟨[], [], []⟩ rfl

end PhotometryKron
